import Mathlib

/-!
Shallow embedding of the ST7032 character-LCD driver (`src/i2cLCD.cpp`) and
verification of the frozen claims about it.

The driver talks to a write-only LCD controller over a two-wire bus.  We model
the bus transport (`i2c_write_blocking` of the Pico SDK) as an environment
function `resp : Nat → Int` giving the value the transport returns for the
n-th transmission of the run, and we record every transmission (its byte
payload) in a trace.  The global shadow-state struct `lcdSetting` and the
trace together form the `World` threaded through every operation, which
mirrors the C control flow statement by statement.

C `uint8_t` values are modelled as `Nat` with `% 256` applied exactly where C
performs an integral conversion; C `int` is `Int`.  For a non-negative mask
`m+1 = 2^k`, C's `mask & x` on a (possibly negative) two's-complement `int`
equals Lean's Euclidean `x % 2^k`, and C's arithmetic shift `x >> 4` equals
floor division, which is Lean's `x / 16` on `Int` for the values involved;
those are the forms used below when the C operand is an `int`.

Uninitialised C locals (the `iSendBytes` accumulators of
`lcd_FollowerControlSet`, and the stack contents of the `t_data` staging
buffer of `i2c_write_Data`) are modelled as extra parameters: the function
receives the arbitrary junk value the stack happened to contain.
-/

set_option linter.unusedVariables false

namespace ST7032

/-! ### Constants (struct `LCD_COMMANDS` and the two control bytes) -/

/-- Control byte prefixed to data (character) transmissions. -/
def LCD_CHARACTER : Nat := 0x40
/-- Control byte prefixed to command transmissions. -/
def LCD_COMMAND : Nat := 0x00

def CLEARDISPLAY : Nat := 0x01
def RETURNHOME : Nat := 0x02
def ENTRYMODESET : Nat := 0x04
def DISPLAYONOFF : Nat := 0x08
def FUNCTIONSET : Nat := 0x20
def SETDDRAMADDR : Nat := 0x80
def IS0_CURDISPSHIFT : Nat := 0x10
def IS1_INTOSC : Nat := 0x10
def IS1_SETICON : Nat := 0x40
def IS1_POWERICONCTRL : Nat := 0x50
def IS1_FOLLOWERCTRL : Nat := 0x60
def IS1_FOLLOWERCONTRAST : Nat := 0x70

/-- `FuncSetOpt.EIGHTBITMODE` -/
def EIGHTBITMODE : Nat := 0x10
/-- `FuncSetOpt.DOUBLELINE` -/
def DOUBLELINE : Nat := 0x08
/-- `FuncSetOpt.DOUBLEHEIGHT` -/
def DOUBLEHEIGHT : Nat := 0x04
/-- `FuncSetOpt.INSTRUCTIONTABLE` -/
def INSTRUCTIONTABLE : Nat := 0x01

/-- `DisplayOnOffOpt.CURBLINK_ON` -/
def CURBLINK_ON : Nat := 0x01
/-- `DisplayOnOffOpt.CURSOR_ON` -/
def CURSOR_ON : Nat := 0x02
/-- `DisplayOnOffOpt.DISPLAY_ON` -/
def DISPLAY_ON : Nat := 0x04

/-- `PowerIconOpt.ICON_ON` -/
def ICON_ON : Nat := 0x08
/-- `PowerIconOpt.POWERBOOST` -/
def POWERBOOST : Nat := 0x04
/-- `PowerIconOpt.CONTRASTUPPER_MASK` -/
def CONTRASTUPPER_MASK : Nat := 0x03
/-- `FollowerOpt.ON` -/
def FOLLOWER_ON : Nat := 0x08
/-- `FollowerOpt.AMPRATIO_MASK` -/
def AMPRATIO_MASK : Nat := 0x07
/-- `FollowerContrastOpt.CONTRASTLOWER_MASK` -/
def CONTRASTLOWER_MASK : Nat := 0x0F

def MAX_LINES : Nat := 2
def MAX_CHARS : Nat := 16

/-! ### Shadow state (`struct LCDSetting`) and the world -/

/-- The shadow-state struct `LCDSetting` of `i2cLCD.cpp` (the variant defined
in the `.cpp` file).  `uint8_t` fields are `Nat`s kept below 256 by the
operations that write them. -/
structure LCDSetting where
  isFunc_ISMode : Bool
  isFunc_2LINE : Bool
  isFunc_DoubleHeight : Bool
  isFunc_8Bit : Bool
  isDisplayToLeft : Bool
  aryIconValue : List Nat
  isFollowerOnOff : Bool
  followerAmpRatio : Nat
  isPowerIconOn : Bool
  isPowerBoost : Bool
  uiContrast : Nat
  isInSleep : Bool
  isDisplayOn : Bool
  isUnderLine : Bool
  isBlink : Bool
  OSCFreq : Nat
  isBias1By4 : Bool
  isCursorDisplay : Bool
deriving DecidableEq, Repr

/-- The transport environment: the value `i2c_write_blocking` returns for the
n-th transmission issued during the run (2 = full 2-byte command sent;
a negative value = transport error; anything else = short transmission). -/
abbrev Transport := Nat → Int

/-- Global state threaded through every operation: the shadow struct
`lcdSetting` plus the trace of byte payloads transmitted so far. -/
structure World where
  lcdSetting : LCDSetting
  sent : List (List Nat)
deriving DecidableEq, Repr

/-! ### Low-level transmission (`i2c_write_blocking` wrappers) -/

/-- Model of the SDK call `i2c_write_blocking(I2C_PORT, iI2CAddress, buf, len,
false)`: records the payload in the trace and returns whatever the
environment answers for this (the `w.sent.length`-th) transmission. -/
def i2c_write_blocking (resp : Transport) (w : World) (payload : List Nat) :
    Int × World :=
  (resp w.sent.length, ⟨w.lcdSetting, w.sent ++ [payload]⟩)

/-- `i2c_write_byte`: sends `[LCD_COMMAND, val]`.  The C parameter is
`uint8_t`, so the value is truncated to a byte at the call boundary. -/
def i2c_write_byte (resp : Transport) (w : World) (val : Nat) : Int × World :=
  i2c_write_blocking resp w [LCD_COMMAND, val % 256]

/-- `i2c_write_DataByte`: sends `[LCD_CHARACTER, val]`. -/
def i2c_write_DataByte (resp : Transport) (w : World) (val : Nat) :
    Int × World :=
  i2c_write_blocking resp w [LCD_CHARACTER, val % 256]

/-- `lcd_send_byte` is a plain wrapper around `i2c_write_byte`. -/
def lcd_send_byte (resp : Transport) (w : World) (val : Nat) : Int × World :=
  i2c_write_byte resp w val

/-! ### FunctionSet and the instruction-table switches -/

/-- `lcd_FunctionSet(uint8_t mode)`: persists the four decoded mode bits into
the shadow struct, then sends `FUNCTIONSET | mode`. -/
def lcd_FunctionSet (resp : Transport) (w : World) (mode : Nat) : Int × World :=
  let st := w.lcdSetting
  let st :=
    { st with
      isFunc_ISMode := mode &&& INSTRUCTIONTABLE != 0
      isFunc_2LINE := mode &&& DOUBLELINE != 0
      isFunc_DoubleHeight := mode &&& DOUBLEHEIGHT != 0
      isFunc_8Bit := mode &&& EIGHTBITMODE != 0 }
  lcd_send_byte resp { w with lcdSetting := st } (FUNCTIONSET ||| mode)

/-- The `DOUBLELINE` / `DOUBLEHEIGHT` / `EIGHTBITMODE` bits that
`lcd_NormalMode` and `lcd_ExtendMode` reconstruct from the shadow state
(the three `val |= lcdSetting.… ? … : 0` lines). -/
def fsBits (st : LCDSetting) : Nat :=
  (if st.isFunc_2LINE then DOUBLELINE else 0) |||
    (if st.isFunc_DoubleHeight then DOUBLEHEIGHT else 0) |||
      (if st.isFunc_8Bit then EIGHTBITMODE else 0)

/-- `lcd_NormalMode`: if the shadow table is extended, reissue FunctionSet
with the table-select bit clear and the other bits from shadow state;
otherwise do nothing and return 0. -/
def lcd_NormalMode (resp : Transport) (w : World) : Int × World :=
  if w.lcdSetting.isFunc_ISMode then
    lcd_FunctionSet resp w (fsBits w.lcdSetting)
  else
    (0, w)

/-- `lcd_ExtendMode`: if the shadow table is already extended, do nothing and
return 0; otherwise reissue FunctionSet with the table-select bit set and the
other bits from shadow state. -/
def lcd_ExtendMode (resp : Transport) (w : World) : Int × World :=
  if w.lcdSetting.isFunc_ISMode then
    (0, w)
  else
    lcd_FunctionSet resp w (INSTRUCTIONTABLE ||| fsBits w.lcdSetting)

/-! ### Characterisation lemmas for the table switches -/

theorem lcd_ExtendMode_eq (resp : Transport) (w : World) :
    lcd_ExtendMode resp w =
      if w.lcdSetting.isFunc_ISMode then (0, w)
      else
        (resp w.sent.length,
          ⟨{ w.lcdSetting with isFunc_ISMode := true },
            w.sent ++
              [[LCD_COMMAND,
                  FUNCTIONSET ||| (INSTRUCTIONTABLE ||| fsBits w.lcdSetting)]]⟩) := by
  obtain ⟨⟨b1, b2, b3, b4, b5, ary, b6, amp, b7, b8, ui, b9, b10, b11, b12,
    osc, b13, b14⟩, sent⟩ := w
  cases b1 <;> cases b2 <;> cases b3 <;> cases b4 <;>
    simp [lcd_ExtendMode, lcd_FunctionSet, lcd_send_byte, i2c_write_byte,
      i2c_write_blocking, fsBits, FUNCTIONSET, INSTRUCTIONTABLE, DOUBLELINE,
      DOUBLEHEIGHT, EIGHTBITMODE, LCD_COMMAND] <;> decide

theorem lcd_NormalMode_eq (resp : Transport) (w : World) :
    lcd_NormalMode resp w =
      if w.lcdSetting.isFunc_ISMode then
        (resp w.sent.length,
          ⟨{ w.lcdSetting with isFunc_ISMode := false },
            w.sent ++ [[LCD_COMMAND, FUNCTIONSET ||| fsBits w.lcdSetting]]⟩)
      else (0, w) := by
  obtain ⟨⟨b1, b2, b3, b4, b5, ary, b6, amp, b7, b8, ui, b9, b10, b11, b12,
    osc, b13, b14⟩, sent⟩ := w
  cases b1 <;> cases b2 <;> cases b3 <;> cases b4 <;>
    simp [lcd_NormalMode, lcd_FunctionSet, lcd_send_byte, i2c_write_byte,
      i2c_write_blocking, fsBits, FUNCTIONSET, INSTRUCTIONTABLE, DOUBLELINE,
      DOUBLEHEIGHT, EIGHTBITMODE, LCD_COMMAND] <;> decide

/-! ### Display / cursor operations -/

/-- `lcd_CursorMode(bool isDisplayOn, bool isUnderLine, bool isBlink)`.
The source declares its return accumulator as `bool iRet`, so the `int`
returned by `lcd_send_byte` is collapsed to `false`/`true` and returned as
`0`/`1`; this conversion is modelled by the final `if`. -/
def lcd_CursorMode (resp : Transport) (w : World)
    (isDisplayOn isUnderLine isBlink : Bool) : Int × World :=
  let st :=
    { w.lcdSetting with
      isDisplayOn := isDisplayOn
      isUnderLine := isUnderLine
      isBlink := isBlink }
  let mode :=
    (if isDisplayOn then DISPLAY_ON else 0) |||
      (if isUnderLine then CURSOR_ON else 0) |||
        (if isBlink then CURBLINK_ON else 0)
  let s := lcd_send_byte resp { w with lcdSetting := st } (DISPLAYONOFF ||| mode)
  let st2 :=
    { s.2.lcdSetting with isCursorDisplay := isUnderLine || isBlink }
  ((if s.1 = 0 then (0 : Int) else 1), { s.2 with lcdSetting := st2 })

/-- `lcd_CursorDisplay(bool isDisp)`: no-op returning 0 when both stored
cursor attributes are off; otherwise either re-sends the stored cursor mode
(`isDisp = true`) or sends DISPLAYONOFF with only the display bit. -/
def lcd_CursorDisplay (resp : Transport) (w : World) (isDisp : Bool) :
    Int × World :=
  if w.lcdSetting.isUnderLine = false ∧ w.lcdSetting.isBlink = false then
    (0, w)
  else if isDisp then
    let s := lcd_CursorMode resp w w.lcdSetting.isDisplayOn
      w.lcdSetting.isUnderLine w.lcdSetting.isBlink
    (s.1, { s.2 with lcdSetting := { s.2.lcdSetting with isCursorDisplay := true } })
  else
    let s := lcd_send_byte resp w
      (DISPLAYONOFF ||| (if w.lcdSetting.isDisplayOn then DISPLAY_ON else 0))
    (s.1, { s.2 with lcdSetting := { s.2.lcdSetting with isCursorDisplay := false } })

/-! ### Extended-table operations -/

/-- `lcd_FollowerControlSet(bool isOnOff, uint8_t ampRatio)`.  The local
accumulator `iSendBytes` is never initialised in the source before the first
`iSendBytes += iRet`; `iSendBytes0` is the junk value it starts from. -/
def lcd_FollowerControlSet (iSendBytes0 : Int) (resp : Transport) (w : World)
    (isOnOff : Bool) (ampRatio0 : Nat) : Int × World :=
  let ampRatio := ampRatio0 % 256
  let e := lcd_ExtendMode resp w
  let val :=
    (IS1_FOLLOWERCTRL ||| (AMPRATIO_MASK &&& ampRatio)) |||
      (if isOnOff then FOLLOWER_ON else 0)
  let s := lcd_send_byte resp e.2 val
  let n := lcd_NormalMode resp s.2
  (iSendBytes0 + e.1 + s.1 + n.1,
    { n.2 with
      lcdSetting :=
        { n.2.lcdSetting with
          isFollowerOnOff := isOnOff
          followerAmpRatio := ampRatio } })

/-- `lcd_ContrastPowerIconSet(int contrast, bool iconOn, bool boost)`:
switches to the extended table (ignoring the bytes that costs), persists the
three shadow fields, then sends the contrast low nibble and the
power/icon/upper-contrast byte, aborting with the raw return value whenever a
send does not report exactly 2 bytes; on success switches back (again
ignoring the count) and returns the constant 4.
`(contrast % 16)` is C's `CONTRASTLOWER_MASK & contrast`,
`(contrast / 16 % 4)` is C's `CONTRASTUPPER_MASK & (contrast >> 4)`, and
`(contrast % 256)` is the `uint8_t` conversion of the persist, all in
two's-complement semantics. -/
def lcd_ContrastPowerIconSet (resp : Transport) (w : World) (contrast : Int)
    (is_PowerIconCtrl_IconOn is_PowerIconCtrl_Boost : Bool) : Int × World :=
  let w1 := (lcd_ExtendMode resp w).2
  let otherBit :=
    (if is_PowerIconCtrl_IconOn then ICON_ON else 0) |||
      (if is_PowerIconCtrl_Boost then POWERBOOST else 0)
  let w1 :=
    { w1 with
      lcdSetting :=
        { w1.lcdSetting with
          uiContrast := (contrast % 256).toNat
          isPowerIconOn := is_PowerIconCtrl_IconOn
          isPowerBoost := is_PowerIconCtrl_Boost } }
  let s1 := lcd_send_byte resp w1 (IS1_FOLLOWERCONTRAST ||| (contrast % 16).toNat)
  if s1.1 ≠ 2 then s1
  else
    let s2 := lcd_send_byte resp s1.2
      (IS1_POWERICONCTRL ||| otherBit ||| (contrast / 16 % 4).toNat)
    if s2.1 ≠ 2 then s2
    else (4, (lcd_NormalMode resp s2.2).2)

/-- `lcd_contrastSet(int contrast)`: wrapper reusing the stored icon/boost
flags. -/
def lcd_contrastSet (resp : Transport) (w : World) (contrast : Int) :
    Int × World :=
  lcd_ContrastPowerIconSet resp w contrast w.lcdSetting.isPowerIconOn
    w.lcdSetting.isPowerBoost

/-- `lcd_Sleep(bool isSleep)`.  Note the source calls `lcd_ExtendMode()`
before testing the `isInSleep` guard, and the guard paths `return 0`
directly, skipping the closing `lcd_NormalMode`.  `iSendBytesF` is the junk
value for the uninitialised accumulator of the nested
`lcd_FollowerControlSet` call on the wake path. -/
def lcd_Sleep (iSendBytesF : Int) (resp : Transport) (w : World)
    (isSleep : Bool) : Int × World :=
  let e := lcd_ExtendMode resp w
  if isSleep then
    if e.2.lcdSetting.isInSleep then (0, e.2)
    else
      let s1 := lcd_send_byte resp e.2 IS1_FOLLOWERCTRL
      let s2 := lcd_send_byte resp s1.2 IS1_POWERICONCTRL
      let w2 := { s2.2 with lcdSetting := { s2.2.lcdSetting with isInSleep := true } }
      let n := lcd_NormalMode resp w2
      (e.1 + s1.1 + s2.1 + n.1, n.2)
  else
    if e.2.lcdSetting.isInSleep = false then (0, e.2)
    else
      let f := lcd_FollowerControlSet iSendBytesF resp e.2 true
        e.2.lcdSetting.followerAmpRatio
      let c := lcd_ContrastPowerIconSet resp f.2 (f.2.lcdSetting.uiContrast : Int)
        f.2.lcdSetting.isPowerIconOn f.2.lcdSetting.isPowerBoost
      let w2 := { c.2 with lcdSetting := { c.2.lcdSetting with isInSleep := false } }
      let n := lcd_NormalMode resp w2
      (f.1 + c.1 + n.1, n.2)

/-! ### Text output (`i2c_write_Data`, `lcd_string`) -/

/-- `strlen` on a byte list: the number of bytes before the first null. -/
def cstrlen (s : List Nat) : Nat := (s.takeWhile (fun b => b != 0)).length

/-- The write trace of the copy loop of `i2c_write_Data`: for each
`i < len`, the body writes `t_data[0] = LCD_CHARACTER` and then
`t_data[i+1] = buf[i]`, in that order. -/
def dataLoop (buf : List Nat) (len : Nat) : List (Nat × Nat) :=
  (List.range len).flatMap
    (fun i => [(0, LCD_CHARACTER), (i + 1, buf.getD i 0 % 256)])

/-- One store into the staging buffer (modelled as an unbounded memory). -/
def writeBuf (t : Nat → Nat) (idx v : Nat) : Nat → Nat :=
  fun j => if j = idx then v else t j

/-- Replay a list of stores over the staging buffer. -/
def applyWrites (t : Nat → Nat) (ws : List (Nat × Nat)) : Nat → Nat :=
  ws.foldl (fun acc p => writeBuf acc p.1 p.2) t

/-- `i2c_write_Data(unsigned char *buf)`: fills the `t_data` staging buffer
(declared `uint8_t t_data[MAX_CHARS*MAX_LINES+1]`, i.e. 33 bytes) with the
copy loop, then transmits `len+1` bytes starting at `t_data[0]` where
`len = strlen(buf)`, and returns `0 + iRet`.  `t0` is the uninitialised
content the stack buffer starts with. -/
def i2c_write_Data (t0 : Nat → Nat) (resp : Transport) (w : World)
    (buf : List Nat) : Int × World :=
  let len := cstrlen buf
  let t := applyWrites t0 (dataLoop buf len)
  let s := i2c_write_blocking resp w ((List.range (len + 1)).map t)
  (0 + s.1, s.2)

/-- The staging-buffer indices written by `i2c_write_Data` on input `buf`. -/
def i2c_write_Data_writeIdx (buf : List Nat) : List Nat :=
  (dataLoop buf (cstrlen buf)).map Prod.fst

/-- The staging-buffer indices read out for transmission by
`i2c_write_Data` on input `buf`. -/
def i2c_write_Data_readIdx (buf : List Nat) : List Nat :=
  List.range (cstrlen buf + 1)

/-- `lcd_string(const char *s)`: delegates to `i2c_write_Data`. -/
def lcd_string (t0 : Nat → Nat) (resp : Transport) (w : World)
    (s : List Nat) : Int × World :=
  i2c_write_Data t0 resp w s

/-- Modelled from the spec: the repository variant of `WriteText` taking an
explicit length is not part of `src/` (only the null-terminated
`lcd_string` path is); per the spec, `length < 0` means "up to the first
null terminator" and otherwise the exact byte count, including embedded
nulls, is sent as one `[0x40, byte0, byte1, ...]` transmission. -/
def WriteText (t0 : Nat → Nat) (resp : Transport) (w : World)
    (bytes : List Nat) (length : Int) : Int × World :=
  if length < 0 then
    i2c_write_Data t0 resp w bytes
  else
    i2c_write_blocking resp w
      (LCD_CHARACTER :: (bytes.take length.toNat).map (fun b => b % 256))

/-! ### Concrete sample data for closed theorems -/

/-- A concrete shadow state: the field values `lcd_init` installs (the
four display/cursor booleans, which `lcd_init` leaves to later calls, are
taken as `false`). -/
def st0 : LCDSetting where
  isFunc_ISMode := false
  isFunc_2LINE := true
  isFunc_DoubleHeight := false
  isFunc_8Bit := true
  isDisplayToLeft := false
  aryIconValue := List.replicate 16 0
  isFollowerOnOff := true
  followerAmpRatio := 0
  isPowerIconOn := false
  isPowerBoost := false
  uiContrast := 0
  isInSleep := false
  isDisplayOn := false
  isUnderLine := false
  isBlink := false
  OSCFreq := 4
  isBias1By4 := false
  isCursorDisplay := false

/-- Fresh world: shadow defaults, empty transmission trace. -/
def w0 : World := ⟨st0, []⟩

/-- The same world but with the sleep flag set. -/
def wSleeping : World := ⟨{ st0 with isInSleep := true }, []⟩

/-- Transport that acknowledges every 2-byte transmission in full. -/
def respOK : Transport := fun _ => 2

/-- Transport that fails every transmission with `-1`. -/
def respErr : Transport := fun _ => -1

/-- Transport that fails the second transmission of the run (index 1). -/
def respFail1 : Transport := fun n => if n = 1 then -1 else 2

/-! ### Arithmetic helper lemmas -/

theorem or_lt_256 {a b : Nat} (ha : a < 256) (hb : b < 256) : a ||| b < 256 := by
  have h : (256 : Nat) = 2 ^ 8 := by norm_num
  rw [h] at ha hb ⊢
  exact Nat.or_lt_two_pow ha hb

theorem toNat_emod16 (u : Nat) : ((u : Int) % 16).toNat = u % 16 := by omega

theorem toNat_emod256 (u : Nat) : ((u : Int) % 256).toNat = u % 256 := by omega

theorem toNat_ediv16_emod4 (u : Nat) :
    ((u : Int) / 16 % 4).toNat = u / 16 % 4 := by omega

theorem drop_len_append {α : Type} (l m : List α) (k : Nat) :
    (l ++ m).drop (l.length + k) = m.drop k := by
  induction l with
  | nil => simp
  | cons a t ih =>
    have h : t.length + 1 + k = (t.length + k) + 1 := by omega
    simp only [List.cons_append, List.length_cons, h, List.drop_succ_cons]
    exact ih

theorem drop_left_eq {α : Type} (l m : List α) : (l ++ m).drop l.length = m := by
  simp

/-! ### Staging-buffer lemmas for `i2c_write_Data` -/

theorem applyWrites_append (t : Nat → Nat) (l1 l2 : List (Nat × Nat)) :
    applyWrites t (l1 ++ l2) = applyWrites (applyWrites t l1) l2 := by
  simp [applyWrites, List.foldl_append]

/-- Pointwise description of the staging buffer after the copy loop:
index 0 holds the control byte (when the loop ran at all), indexes `1..len`
hold the copied string bytes, and everything else keeps its junk content. -/
theorem applyWrites_dataLoop (t0 : Nat → Nat) (buf : List Nat) (len j : Nat) :
    applyWrites t0 (dataLoop buf len) j =
      if len = 0 then t0 j
      else if j = 0 then LCD_CHARACTER
      else if j ≤ len then buf.getD (j - 1) 0 % 256
      else t0 j := by
  induction len with
  | zero => simp [dataLoop, applyWrites]
  | succ n ih =>
    have hsplit : dataLoop buf (n + 1)
        = dataLoop buf n ++ [(0, LCD_CHARACTER), (n + 1, buf.getD n 0 % 256)] := by
      simp [dataLoop, List.range_succ]
    rw [hsplit, applyWrites_append]
    simp only [applyWrites, List.foldl_cons, List.foldl_nil, writeBuf]
    rw [show (List.foldl (fun acc p => writeBuf acc p.1 p.2) t0 (dataLoop buf n))
        = applyWrites t0 (dataLoop buf n) from rfl, ih]
    split_ifs <;> (try simp_all) <;> omega

theorem cstrlen_cons (a : Nat) (t : List Nat) :
    cstrlen (a :: t) = if a != 0 then cstrlen t + 1 else 0 := by
  rw [cstrlen, List.takeWhile_cons]
  by_cases h : (a != 0) = true <;> simp [h, cstrlen]

theorem cstrlen_le (buf : List Nat) : cstrlen buf ≤ buf.length := by
  induction buf with
  | nil => simp [cstrlen]
  | cons a t ih =>
    rw [cstrlen_cons]
    by_cases h : (a != 0) = true <;> simp [h, List.length_cons] <;> omega

theorem takeWhile_eq_take (buf : List Nat) :
    buf.takeWhile (fun b => b != 0) = buf.take (cstrlen buf) := by
  induction buf with
  | nil => rfl
  | cons a t ih =>
    rw [List.takeWhile_cons, cstrlen_cons]
    by_cases h : (a != 0) = true
    · simp only [h, if_true]
      rw [List.take_succ_cons, ih]
    · simp [h]

theorem range_map_getD (buf : List Nat) (len : Nat) (h : len ≤ buf.length) :
    (List.range len).map (fun k => buf.getD k 0 % 256)
      = (buf.take len).map (fun b => b % 256) := by
  induction len with
  | zero => simp
  | succ n ih =>
    have hn : n < buf.length := by omega
    rw [List.range_succ, List.map_append, ih (by omega), List.take_succ,
      List.getElem?_eq_getElem hn]
    rw [List.map_append]
    congr 1
    simp [List.getD_eq_getElem?_getD, List.getElem?_eq_getElem hn]

/-- The byte payload `i2c_write_Data` hands to the bus on a string with a
non-empty prefix before the first null: the control byte followed by that
prefix. -/
theorem i2c_payload_eq (t0 : Nat → Nat) (buf : List Nat)
    (h : 0 < cstrlen buf) :
    (List.range (cstrlen buf + 1)).map (applyWrites t0 (dataLoop buf (cstrlen buf)))
      = LCD_CHARACTER :: (buf.takeWhile (fun b => b != 0)).map (fun b => b % 256) := by
  have h0 : cstrlen buf ≠ 0 := by omega
  rw [takeWhile_eq_take, List.range_succ_eq_map, List.map_cons]
  congr 1
  · rw [applyWrites_dataLoop]
    simp [h0]
  · rw [List.map_map, ← range_map_getD buf (cstrlen buf) (cstrlen_le buf)]
    apply List.map_congr_left
    intro k hk
    rw [List.mem_range] at hk
    rw [Function.comp_apply, applyWrites_dataLoop]
    rw [if_neg h0, if_neg (Nat.succ_ne_zero k), if_pos (by omega)]
    simp

/-! ### Claim theorems -/

/-- C1 counterexample: from the fresh state (contrastLevel 0, icon and boost
off, standard table), a `lcd_ContrastPowerIconSet(40, true, true)` call whose
first command send fails with `-1` aborts and returns `-1`, yet the shadow
fields already hold the new values 40/true/true rather than their prior
values — refuting "on an aborted call these three fields keep their prior
values". -/
theorem C1_aborted_call_keeps_new_values :
    (lcd_ContrastPowerIconSet respFail1 w0 40 true true).1 = -1
      ∧ w0.lcdSetting.uiContrast = 0
      ∧ w0.lcdSetting.isPowerIconOn = false
      ∧ w0.lcdSetting.isPowerBoost = false
      ∧ (lcd_ContrastPowerIconSet respFail1 w0 40 true true).2.lcdSetting.uiContrast = 40
      ∧ (lcd_ContrastPowerIconSet respFail1 w0 40 true true).2.lcdSetting.isPowerIconOn = true
      ∧ (lcd_ContrastPowerIconSet respFail1 w0 40 true true).2.lcdSetting.isPowerBoost = true := by
  decide

/-- C2: the byte-count contract is broken in `src/i2cLCD.cpp`.
With a fully successful transport and the fresh state,
`lcd_CursorMode` sends one 2-byte transmission but returns 1 (its
accumulator is declared `bool`), and returns 1 even when the transport
reports `-1`; `lcd_ContrastPowerIconSet` transmits 4 commands (8 bytes,
including its two instruction-table switches) but returns the constant 4;
`lcd_FollowerControlSet` adds its counts to an uninitialised accumulator
(here starting at junk value 1), returning 7 for 6 bytes sent. -/
theorem C2_byte_count_contract_violated :
    (lcd_CursorMode respOK w0 true true true).1 = 1
      ∧ (lcd_CursorMode respOK w0 true true true).2.sent = [[LCD_COMMAND, 0x0F]]
      ∧ (lcd_CursorMode respErr w0 true true true).1 = 1
      ∧ (lcd_ContrastPowerIconSet respOK w0 40 true true).1 = 4
      ∧ ((lcd_ContrastPowerIconSet respOK w0 40 true true).2.sent.map
            List.length).sum = 8
      ∧ (lcd_FollowerControlSet 1 respOK w0 true 4).1 = 7
      ∧ ((lcd_FollowerControlSet 1 respOK w0 true 4).2.sent.map
            List.length).sum = 6 := by
  decide

/-- C3: `lcd_Sleep(true)` on a shadow state that already records sleeping
(standard table, fully successful transport) returns 0 but leaves the shadow
instruction table EXTENDED, because the source switches to the extended
table before testing the sleep guard and the guard returns without the
closing `lcd_NormalMode` — refuting "always restores the standard table
before returning, for every starting shadow state". -/
theorem C3_sleep_guard_leaves_extended_table :
    (lcd_Sleep 0 respOK wSleeping true).1 = 0
      ∧ wSleeping.lcdSetting.isFunc_ISMode = false
      ∧ (lcd_Sleep 0 respOK wSleeping true).2.lcdSetting.isFunc_ISMode = true := by
  decide

/-- C4: an already-asleep `lcd_Sleep(true)` (and an already-awake
`lcd_Sleep(false)`) returns 0 but does issue one bus transmission — the
FunctionSet of the `lcd_ExtendMode()` call placed before the guard; in
particular after a genuine `lcd_Sleep(true)` a second `lcd_Sleep(true)`
returns 0 and still grows the trace by one transmission. -/
theorem C4_sleep_noop_still_transmits :
    (lcd_Sleep 0 respOK wSleeping true).1 = 0
      ∧ (lcd_Sleep 0 respOK wSleeping true).2.sent = [[LCD_COMMAND, 0x39]]
      ∧ (lcd_Sleep 0 respOK w0 false).1 = 0
      ∧ (lcd_Sleep 0 respOK w0 false).2.sent = [[LCD_COMMAND, 0x39]]
      ∧ (lcd_Sleep 7 respOK (lcd_Sleep 0 respOK w0 true).2 true).1 = 0
      ∧ (lcd_Sleep 7 respOK (lcd_Sleep 0 respOK w0 true).2 true).2.sent.length
          = (lcd_Sleep 0 respOK w0 true).2.sent.length + 1 := by
  decide

/-- C9 counterexample: on the byte sequence `[0, 65]` (a string whose first
byte is the null terminator, `strlen = 0`), `lcd_string` transmits the single
uninitialised staging byte (here junk value 99) instead of the claimed
control byte `0x40`: the `t_data[0] = LCD_CHARACTER` store sits inside the
copy loop, which does not execute. -/
theorem C9_empty_string_sends_junk_byte :
    (lcd_string (fun _ => 99) respOK w0 [0, 65]).2.sent = [[99]]
      ∧ cstrlen [0, 65] = 0
      ∧ [99] ≠ [LCD_CHARACTER] := by
  decide

/-- C6: `lcd_CursorMode(isDisplayOn, false, false)` forces the stored
`isCursorDisplay` flag to `false`, and a subsequent `lcd_CursorDisplay(true)`
is a no-op that returns 0, changes nothing and issues no transmission
(whatever the transport answers). -/
theorem C6_cursor_display_noop_without_underline_blink
    (resp resp2 : Transport) (w : World) (isDisplayOn : Bool) :
    (lcd_CursorMode resp w isDisplayOn false false).2.lcdSetting.isCursorDisplay
        = false
      ∧ lcd_CursorDisplay resp2 (lcd_CursorMode resp w isDisplayOn false false).2
          true
        = (0, (lcd_CursorMode resp w isDisplayOn false false).2) := by
  constructor
  · simp [lcd_CursorMode]
  · simp [lcd_CursorDisplay, lcd_CursorMode, lcd_send_byte, i2c_write_byte,
      i2c_write_blocking]

/-- C8: the instruction-table switches are idempotent read-modify-writes.
`lcd_ExtendMode` on a shadow state already showing the extended table
returns 0 and sends nothing, and symmetrically for `lcd_NormalMode`
on the standard table; when the table-select bit is toggled, the single
FunctionSet transmission carries the other bits reconstructed from the
shadow state (`fsBits`); and calling `lcd_ExtendMode` twice in a row issues
exactly one FunctionSet transmission — the second call returns 0 and leaves
the world untouched. -/
theorem C8_table_switch_idempotent (resp resp2 : Transport) (w : World) :
    lcd_ExtendMode resp w
        = (if w.lcdSetting.isFunc_ISMode then (0, w)
           else
             (resp w.sent.length,
               ⟨{ w.lcdSetting with isFunc_ISMode := true },
                 w.sent ++
                   [[LCD_COMMAND,
                       FUNCTIONSET ||| (INSTRUCTIONTABLE ||| fsBits w.lcdSetting)]]⟩))
      ∧ lcd_NormalMode resp w
        = (if w.lcdSetting.isFunc_ISMode then
             (resp w.sent.length,
               ⟨{ w.lcdSetting with isFunc_ISMode := false },
                 w.sent ++ [[LCD_COMMAND, FUNCTIONSET ||| fsBits w.lcdSetting]]⟩)
           else (0, w))
      ∧ lcd_ExtendMode resp2 (lcd_ExtendMode resp w).2
          = (0, (lcd_ExtendMode resp w).2)
      ∧ (lcd_ExtendMode resp w).2.sent.length
          = w.sent.length + (if w.lcdSetting.isFunc_ISMode then 0 else 1) := by
  refine ⟨lcd_ExtendMode_eq resp w, lcd_NormalMode_eq resp w, ?_, ?_⟩
  · rw [lcd_ExtendMode_eq resp w]
    by_cases h : w.lcdSetting.isFunc_ISMode <;> simp [h, lcd_ExtendMode]
  · rw [lcd_ExtendMode_eq resp w]
    by_cases h : w.lcdSetting.isFunc_ISMode <;> simp [h]

/-- C1 (amended): if either of the two sends of `lcd_ContrastPowerIconSet`
reports a byte count other than 2, the operation aborts the remaining steps
(no further transmission, in particular no closing table switch) and returns
that short count verbatim — but the three shadow fields `uiContrast`,
`isPowerIconOn` and `isPowerBoost` are persisted unconditionally before the
sends, so even an aborted call leaves the new values, not the prior ones.
Here `w.sent.length + (if … then 0 else 1)` is the index of the first
contrast send (one bracket transmission precedes it when the shadow table
was standard). -/
theorem C1_short_send_aborts_but_fields_persist
    (resp : Transport) (w : World) (contrast : Int) (iconOn boost : Bool)
    (habort :
      resp (w.sent.length + (if w.lcdSetting.isFunc_ISMode then 0 else 1)) ≠ 2
        ∨ resp (w.sent.length + (if w.lcdSetting.isFunc_ISMode then 0 else 1) + 1)
            ≠ 2) :
    (lcd_ContrastPowerIconSet resp w contrast iconOn boost).1
        = (if resp (w.sent.length + (if w.lcdSetting.isFunc_ISMode then 0 else 1))
              ≠ 2
           then resp (w.sent.length + (if w.lcdSetting.isFunc_ISMode then 0 else 1))
           else
             resp (w.sent.length + (if w.lcdSetting.isFunc_ISMode then 0 else 1) + 1))
      ∧ (lcd_ContrastPowerIconSet resp w contrast iconOn
            boost).2.lcdSetting.uiContrast = (contrast % 256).toNat
      ∧ (lcd_ContrastPowerIconSet resp w contrast iconOn
            boost).2.lcdSetting.isPowerIconOn = iconOn
      ∧ (lcd_ContrastPowerIconSet resp w contrast iconOn
            boost).2.lcdSetting.isPowerBoost = boost
      ∧ (lcd_ContrastPowerIconSet resp w contrast iconOn boost).2.sent.length
          = w.sent.length + (if w.lcdSetting.isFunc_ISMode then 0 else 1)
              + (if resp (w.sent.length
                    + (if w.lcdSetting.isFunc_ISMode then 0 else 1)) ≠ 2
                 then 1 else 2) := by
  by_cases hIS : w.lcdSetting.isFunc_ISMode = true
  · simp only [hIS, ite_true, Nat.add_zero] at habort ⊢
    by_cases h1 : resp w.sent.length = 2
    · have h2 : resp (w.sent.length + 1) ≠ 2 := by tauto
      simp [lcd_ContrastPowerIconSet, lcd_ExtendMode_eq, hIS, lcd_send_byte,
        i2c_write_byte, i2c_write_blocking, h1, h2]
    · simp [lcd_ContrastPowerIconSet, lcd_ExtendMode_eq, hIS, lcd_send_byte,
        i2c_write_byte, i2c_write_blocking, h1]
  · simp only [Bool.not_eq_true] at hIS
    simp only [hIS, ite_false] at habort ⊢
    by_cases h1 : resp (w.sent.length + 1) = 2
    · have h2 : resp (w.sent.length + 1 + 1) ≠ 2 := by tauto
      simp [lcd_ContrastPowerIconSet, lcd_ExtendMode_eq, hIS, lcd_send_byte,
        i2c_write_byte, i2c_write_blocking, h1, h2]
    · simp [lcd_ContrastPowerIconSet, lcd_ExtendMode_eq, hIS, lcd_send_byte,
        i2c_write_byte, i2c_write_blocking, h1]

/-- Witness for C1: concrete aborted call (second transmission of the run,
i.e. the first contrast send after the bracket, fails with `-1`). -/
theorem C1_short_send_aborts_but_fields_persist_witness :
    (lcd_ContrastPowerIconSet respFail1 w0 40 true true).1
        = (if respFail1 (w0.sent.length
              + (if w0.lcdSetting.isFunc_ISMode then 0 else 1)) ≠ 2
           then respFail1 (w0.sent.length
              + (if w0.lcdSetting.isFunc_ISMode then 0 else 1))
           else respFail1 (w0.sent.length
              + (if w0.lcdSetting.isFunc_ISMode then 0 else 1) + 1))
      ∧ (lcd_ContrastPowerIconSet respFail1 w0 40 true
            true).2.lcdSetting.uiContrast = ((40 : Int) % 256).toNat
      ∧ (lcd_ContrastPowerIconSet respFail1 w0 40 true
            true).2.lcdSetting.isPowerIconOn = true
      ∧ (lcd_ContrastPowerIconSet respFail1 w0 40 true
            true).2.lcdSetting.isPowerBoost = true
      ∧ (lcd_ContrastPowerIconSet respFail1 w0 40 true true).2.sent.length
          = w0.sent.length + (if w0.lcdSetting.isFunc_ISMode then 0 else 1)
              + (if respFail1 (w0.sent.length
                    + (if w0.lcdSetting.isFunc_ISMode then 0 else 1)) ≠ 2
                 then 1 else 2) :=
  C1_short_send_aborts_but_fields_persist respFail1 w0 40 true true
    (Or.inl (by decide))

/-- C5: for every contrast 0..63 and any starting state, with a transport
acknowledging every send in full, `lcd_ContrastPowerIconSet` transmits (apart
from its table-switch brackets) exactly the two 2-byte commands
`[0x00, IS1_FOLLOWERCONTRAST | (contrast & 0xF)]` and
`[0x00, IS1_POWERICONCTRL | iconBit | boostBit | ((contrast >> 4) & 0b11)]`,
in that order, and the low-4/high-2 split reconstructs the 6-bit contrast:
`((contrast >> 4) & 3) * 16 + (contrast & 0xF) = contrast`. -/
theorem C5_contrast_nibble_split
    (resp : Transport) (w : World) (c : Nat) (iconOn boost : Bool)
    (hc : c < 64) (hresp : ∀ n, resp n = 2) :
    (lcd_ContrastPowerIconSet resp w (c : Int) iconOn boost).2.sent
        = w.sent
            ++ (if w.lcdSetting.isFunc_ISMode then []
                else
                  [[LCD_COMMAND,
                      FUNCTIONSET ||| (INSTRUCTIONTABLE ||| fsBits w.lcdSetting)]])
            ++ [[LCD_COMMAND, IS1_FOLLOWERCONTRAST ||| c % 16],
                [LCD_COMMAND,
                    IS1_POWERICONCTRL
                      ||| ((if iconOn then ICON_ON else 0)
                            ||| (if boost then POWERBOOST else 0))
                      ||| c / 16 % 4]]
            ++ [[LCD_COMMAND, FUNCTIONSET ||| fsBits w.lcdSetting]]
      ∧ (c / 16 % 4) * 16 + c % 16 = c
      ∧ (lcd_ContrastPowerIconSet resp w (c : Int) iconOn boost).1 = 4 := by
  have e1 : ((c : Int) % 16).toNat = c % 16 := toNat_emod16 c
  have e3 : ((c : Int) / 16 % 4).toNat = c / 16 % 4 := toNat_ediv16_emod4 c
  have hob :
      ((if iconOn then ICON_ON else 0) ||| (if boost then POWERBOOST else 0))
        < 256 := by
    cases iconOn <;> cases boost <;> decide
  have hb1 :
      (IS1_FOLLOWERCONTRAST ||| c % 16) % 256 = IS1_FOLLOWERCONTRAST ||| c % 16 :=
    Nat.mod_eq_of_lt (or_lt_256 (by decide) (by omega))
  have hb2 :
      (IS1_POWERICONCTRL
          ||| ((if iconOn then ICON_ON else 0) ||| (if boost then POWERBOOST else 0))
          ||| c / 16 % 4) % 256
        = IS1_POWERICONCTRL
            ||| ((if iconOn then ICON_ON else 0) ||| (if boost then POWERBOOST else 0))
            ||| c / 16 % 4 :=
    Nat.mod_eq_of_lt (or_lt_256 (or_lt_256 (by decide) hob) (by omega))
  refine ⟨?_, by omega, ?_⟩ <;>
    by_cases hIS : w.lcdSetting.isFunc_ISMode = true <;>
      [skip; simp only [Bool.not_eq_true] at hIS; skip;
        simp only [Bool.not_eq_true] at hIS] <;>
    simp [lcd_ContrastPowerIconSet, lcd_ExtendMode_eq, lcd_NormalMode_eq, hIS,
      lcd_send_byte, i2c_write_byte, i2c_write_blocking, fsBits, hresp, e1, e3,
      hb1, hb2]

/-- Witness for C5: contrast 40, icon and boost on, fresh state, fully
acknowledging transport. -/
theorem C5_contrast_nibble_split_witness :
    (lcd_ContrastPowerIconSet respOK w0 ((40 : Nat) : Int) true true).2.sent
        = w0.sent
            ++ (if w0.lcdSetting.isFunc_ISMode then []
                else
                  [[LCD_COMMAND,
                      FUNCTIONSET ||| (INSTRUCTIONTABLE ||| fsBits w0.lcdSetting)]])
            ++ [[LCD_COMMAND, IS1_FOLLOWERCONTRAST ||| 40 % 16],
                [LCD_COMMAND,
                    IS1_POWERICONCTRL
                      ||| ((if true then ICON_ON else 0)
                            ||| (if true then POWERBOOST else 0))
                      ||| 40 / 16 % 4]]
            ++ [[LCD_COMMAND, FUNCTIONSET ||| fsBits w0.lcdSetting]]
      ∧ (40 / 16 % 4) * 16 + 40 % 16 = 40
      ∧ (lcd_ContrastPowerIconSet respOK w0 ((40 : Nat) : Int) true true).1 = 4 :=
  C5_contrast_nibble_split respOK w0 40 true true (by decide) (fun _ => rfl)

/-- C7: for every shadow state (with its byte fields in range) and any
transport behaviour during the sleep call, running `lcd_Sleep(true)` then
`lcd_Sleep(false)` (with the wake transport acknowledging every send) leaves
`followerAmpRatio` and `uiContrast` at their pre-sleep values, and the wake
call's own transmissions (the part of the trace after the sleep call) include
the follower command rebuilt from the stored amplification ratio and the two
contrast commands rebuilt from the stored contrast/icon/boost values — not
chip defaults. -/
theorem C7_sleep_wake_round_trip
    (resp1 resp2 : Transport) (j1 j2 : Int) (w : World)
    (hA : w.lcdSetting.followerAmpRatio < 256)
    (hC : w.lcdSetting.uiContrast < 256)
    (hresp2 : ∀ n, resp2 n = 2) :
    (lcd_Sleep j1 resp1 w true).2.lcdSetting.isInSleep = true
      ∧ (lcd_Sleep j2 resp2 (lcd_Sleep j1 resp1 w true).2
            false).2.lcdSetting.followerAmpRatio = w.lcdSetting.followerAmpRatio
      ∧ (lcd_Sleep j2 resp2 (lcd_Sleep j1 resp1 w true).2
            false).2.lcdSetting.uiContrast = w.lcdSetting.uiContrast
      ∧ (lcd_Sleep j2 resp2 (lcd_Sleep j1 resp1 w true).2
            false).2.lcdSetting.isInSleep = false
      ∧ [LCD_COMMAND,
            (IS1_FOLLOWERCTRL ||| (AMPRATIO_MASK &&& w.lcdSetting.followerAmpRatio))
              ||| FOLLOWER_ON]
          ∈ ((lcd_Sleep j2 resp2 (lcd_Sleep j1 resp1 w true).2 false).2.sent.drop
              (lcd_Sleep j1 resp1 w true).2.sent.length)
      ∧ [LCD_COMMAND, IS1_FOLLOWERCONTRAST ||| w.lcdSetting.uiContrast % 16]
          ∈ ((lcd_Sleep j2 resp2 (lcd_Sleep j1 resp1 w true).2 false).2.sent.drop
              (lcd_Sleep j1 resp1 w true).2.sent.length)
      ∧ [LCD_COMMAND,
            IS1_POWERICONCTRL
              ||| ((if w.lcdSetting.isPowerIconOn then ICON_ON else 0)
                    ||| (if w.lcdSetting.isPowerBoost then POWERBOOST else 0))
              ||| w.lcdSetting.uiContrast / 16 % 4]
          ∈ ((lcd_Sleep j2 resp2 (lcd_Sleep j1 resp1 w true).2 false).2.sent.drop
              (lcd_Sleep j1 resp1 w true).2.sent.length) := by
  have hA1 : w.lcdSetting.followerAmpRatio % 256 = w.lcdSetting.followerAmpRatio :=
    Nat.mod_eq_of_lt hA
  have e1 : ((w.lcdSetting.uiContrast : Int) % 16).toNat
      = w.lcdSetting.uiContrast % 16 := toNat_emod16 _
  have e2 : ((w.lcdSetting.uiContrast : Int) % 256).toNat
      = w.lcdSetting.uiContrast := by omega
  have e3 : ((w.lcdSetting.uiContrast : Int) / 16 % 4).toNat
      = w.lcdSetting.uiContrast / 16 % 4 := toNat_ediv16_emod4 _
  have hob : (if w.lcdSetting.isPowerIconOn then ICON_ON else 0)
      ||| (if w.lcdSetting.isPowerBoost then POWERBOOST else 0) < 256 := by
    cases h1 : w.lcdSetting.isPowerIconOn <;>
      cases h2 : w.lcdSetting.isPowerBoost <;> simp [h1, h2] <;> decide
  have hfol : ((IS1_FOLLOWERCTRL
        ||| (AMPRATIO_MASK &&& w.lcdSetting.followerAmpRatio)) ||| FOLLOWER_ON) % 256
      = (IS1_FOLLOWERCTRL ||| (AMPRATIO_MASK &&& w.lcdSetting.followerAmpRatio))
          ||| FOLLOWER_ON :=
    Nat.mod_eq_of_lt (or_lt_256 (or_lt_256 (by decide)
      (Nat.lt_of_le_of_lt Nat.and_le_left (by decide))) (by decide))
  have hlo : (IS1_FOLLOWERCONTRAST ||| w.lcdSetting.uiContrast % 16) % 256
      = IS1_FOLLOWERCONTRAST ||| w.lcdSetting.uiContrast % 16 :=
    Nat.mod_eq_of_lt (or_lt_256 (by decide) (by omega))
  have hhi : (IS1_POWERICONCTRL
        ||| ((if w.lcdSetting.isPowerIconOn then ICON_ON else 0)
              ||| (if w.lcdSetting.isPowerBoost then POWERBOOST else 0))
        ||| w.lcdSetting.uiContrast / 16 % 4) % 256
      = IS1_POWERICONCTRL
          ||| ((if w.lcdSetting.isPowerIconOn then ICON_ON else 0)
                ||| (if w.lcdSetting.isPowerBoost then POWERBOOST else 0))
          ||| w.lcdSetting.uiContrast / 16 % 4 :=
    Nat.mod_eq_of_lt (or_lt_256 (or_lt_256 (by decide) hob) (by omega))
  cases hSl : w.lcdSetting.isInSleep <;>
    cases hIS : w.lcdSetting.isFunc_ISMode <;>
      simp [lcd_Sleep, lcd_FollowerControlSet, lcd_ContrastPowerIconSet,
        lcd_ExtendMode_eq, lcd_NormalMode_eq, lcd_send_byte, i2c_write_byte,
        i2c_write_blocking, fsBits, hSl, hIS, hresp2, hA1, e1, e2, e3, hfol,
        hlo, hhi, drop_len_append, drop_left_eq]

/-- Witness for C7: fresh state, junk accumulators 0, fully acknowledging
transports on both calls. -/
theorem C7_sleep_wake_round_trip_witness :
    (lcd_Sleep 0 respOK w0 true).2.lcdSetting.isInSleep = true
      ∧ (lcd_Sleep 0 respOK (lcd_Sleep 0 respOK w0 true).2
            false).2.lcdSetting.followerAmpRatio = w0.lcdSetting.followerAmpRatio
      ∧ (lcd_Sleep 0 respOK (lcd_Sleep 0 respOK w0 true).2
            false).2.lcdSetting.uiContrast = w0.lcdSetting.uiContrast
      ∧ (lcd_Sleep 0 respOK (lcd_Sleep 0 respOK w0 true).2
            false).2.lcdSetting.isInSleep = false
      ∧ [LCD_COMMAND,
            (IS1_FOLLOWERCTRL ||| (AMPRATIO_MASK &&& w0.lcdSetting.followerAmpRatio))
              ||| FOLLOWER_ON]
          ∈ ((lcd_Sleep 0 respOK (lcd_Sleep 0 respOK w0 true).2 false).2.sent.drop
              (lcd_Sleep 0 respOK w0 true).2.sent.length)
      ∧ [LCD_COMMAND, IS1_FOLLOWERCONTRAST ||| w0.lcdSetting.uiContrast % 16]
          ∈ ((lcd_Sleep 0 respOK (lcd_Sleep 0 respOK w0 true).2 false).2.sent.drop
              (lcd_Sleep 0 respOK w0 true).2.sent.length)
      ∧ [LCD_COMMAND,
            IS1_POWERICONCTRL
              ||| ((if w0.lcdSetting.isPowerIconOn then ICON_ON else 0)
                    ||| (if w0.lcdSetting.isPowerBoost then POWERBOOST else 0))
              ||| w0.lcdSetting.uiContrast / 16 % 4]
          ∈ ((lcd_Sleep 0 respOK (lcd_Sleep 0 respOK w0 true).2 false).2.sent.drop
              (lcd_Sleep 0 respOK w0 true).2.sent.length) :=
  C7_sleep_wake_round_trip respOK respOK 0 0 w0 (by decide) (by decide)
    (fun _ => rfl)

/-- C9 (amended): `lcd_string` (the null-terminated `WriteText` path) stops
at the first null byte; when the prefix before the null is non-empty it sends
exactly one transmission `[0x40, byte0, …]` of `strlen(s)+1` bytes (for an
empty prefix the single byte sent is the uninitialised staging byte, since
the control-byte store sits inside the copy loop); `WriteText` with length
`-1` is exactly that path; and the explicit-positive-length variant sends one
transmission whose payload after the control byte is exactly the first
`length` bytes, embedded nulls included. -/
theorem C9_write_text_null_termination_and_explicit_length
    (t0 : Nat → Nat) (resp : Transport) (w : World) (s bytes : List Nat)
    (n : Nat) (hs : 0 < cstrlen s) (hn : 0 < n) (hnb : n ≤ bytes.length) :
    (lcd_string t0 resp w s).2.sent
        = w.sent
            ++ [LCD_CHARACTER
                  :: (s.takeWhile (fun b => b != 0)).map (fun b => b % 256)]
      ∧ (LCD_CHARACTER
            :: (s.takeWhile (fun b => b != 0)).map (fun b => b % 256)).length
          = cstrlen s + 1
      ∧ WriteText t0 resp w s (-1) = lcd_string t0 resp w s
      ∧ (WriteText t0 resp w bytes (n : Int)).2.sent
          = w.sent ++ [LCD_CHARACTER :: (bytes.take n).map (fun b => b % 256)]
      ∧ ((bytes.take n).map (fun b => b % 256)).length = n := by
  refine ⟨?_, ?_, ?_, ?_, ?_⟩
  · simp [lcd_string, i2c_write_Data, i2c_write_blocking, i2c_payload_eq t0 s hs]
  · simp [cstrlen]
  · simp [WriteText, lcd_string]
  · have hnn : ¬ ((n : Int) < 0) := by omega
    have htn : ((n : Int)).toNat = n := by omega
    simp [WriteText, i2c_write_blocking, hnn, htn]
  · simp [List.length_take]
    omega

/-- Witness for C9: `s = [72,105,0,33]` (text with an embedded null after two
bytes), `bytes = [65,0,66]` with explicit length 3 (embedded null sent). -/
theorem C9_write_text_null_termination_and_explicit_length_witness :
    (lcd_string (fun _ => 0) respOK w0 [72, 105, 0, 33]).2.sent
        = w0.sent
            ++ [LCD_CHARACTER
                  :: (([72, 105, 0, 33] : List Nat).takeWhile
                        (fun b => b != 0)).map (fun b => b % 256)]
      ∧ (LCD_CHARACTER
            :: (([72, 105, 0, 33] : List Nat).takeWhile
                  (fun b => b != 0)).map (fun b => b % 256)).length
          = cstrlen [72, 105, 0, 33] + 1
      ∧ WriteText (fun _ => 0) respOK w0 [72, 105, 0, 33] (-1)
          = lcd_string (fun _ => 0) respOK w0 [72, 105, 0, 33]
      ∧ (WriteText (fun _ => 0) respOK w0 [65, 0, 66] ((3 : Nat) : Int)).2.sent
          = w0.sent
              ++ [LCD_CHARACTER
                    :: (([65, 0, 66] : List Nat).take 3).map (fun b => b % 256)]
      ∧ ((([65, 0, 66] : List Nat).take 3).map (fun b => b % 256)).length = 3 :=
  C9_write_text_null_termination_and_explicit_length (fun _ => 0) respOK w0
    [72, 105, 0, 33] [65, 0, 66] 3 (by decide) (by decide) (by decide)

/-- C10: for a string whose prefix before the first null is non-empty and of
length at most `MAX_LINES * MAX_CHARS = 32`, every staging-buffer index the
copy loop writes and every index read out for transmission is below the
buffer size 33; the call performs exactly one transmission, of
`strlen(s)+1` bytes, whose first byte is the data control byte `0x40`. -/
theorem C10_staging_buffer_within_bounds
    (t0 : Nat → Nat) (resp : Transport) (w : World) (s : List Nat)
    (hlen : cstrlen s ≤ MAX_LINES * MAX_CHARS) (hpos : 0 < cstrlen s) :
    (∀ i ∈ i2c_write_Data_writeIdx s, i < MAX_LINES * MAX_CHARS + 1)
      ∧ (∀ i ∈ i2c_write_Data_readIdx s, i < MAX_LINES * MAX_CHARS + 1)
      ∧ (lcd_string t0 resp w s).2.sent
          = w.sent
              ++ [(List.range (cstrlen s + 1)).map
                    (applyWrites t0 (dataLoop s (cstrlen s)))]
      ∧ ((List.range (cstrlen s + 1)).map
            (applyWrites t0 (dataLoop s (cstrlen s)))).length = cstrlen s + 1
      ∧ ((List.range (cstrlen s + 1)).map
            (applyWrites t0 (dataLoop s (cstrlen s)))).head?
          = some LCD_CHARACTER := by
  simp only [MAX_LINES, MAX_CHARS] at hlen ⊢
  refine ⟨?_, ?_, ?_, ?_, ?_⟩
  · intro i hi
    simp [i2c_write_Data_writeIdx, dataLoop, List.mem_flatMap,
      List.mem_range] at hi
    obtain ⟨x, a, ha, h⟩ := hi
    rcases h with ⟨h1, h2⟩ | ⟨h1, h2⟩ <;> omega
  · intro i hi
    simp [i2c_write_Data_readIdx, List.mem_range] at hi
    omega
  · simp [lcd_string, i2c_write_Data, i2c_write_blocking]
  · simp
  · rw [i2c_payload_eq t0 s hpos]
    rfl

/-- Witness for C10: the two-byte string `[72, 105]`. -/
theorem C10_staging_buffer_within_bounds_witness :
    (∀ i ∈ i2c_write_Data_writeIdx [72, 105], i < MAX_LINES * MAX_CHARS + 1)
      ∧ (∀ i ∈ i2c_write_Data_readIdx [72, 105], i < MAX_LINES * MAX_CHARS + 1)
      ∧ (lcd_string (fun _ => 7) respOK w0 [72, 105]).2.sent
          = w0.sent
              ++ [(List.range (cstrlen [72, 105] + 1)).map
                    (applyWrites (fun _ => 7) (dataLoop [72, 105] (cstrlen [72, 105])))]
      ∧ ((List.range (cstrlen [72, 105] + 1)).map
            (applyWrites (fun _ => 7) (dataLoop [72, 105] (cstrlen [72, 105])))).length
          = cstrlen [72, 105] + 1
      ∧ ((List.range (cstrlen [72, 105] + 1)).map
            (applyWrites (fun _ => 7) (dataLoop [72, 105] (cstrlen [72, 105])))).head?
          = some LCD_CHARACTER :=
  C10_staging_buffer_within_bounds (fun _ => 7) respOK w0 [72, 105]
    (by decide) (by decide)

end ST7032
